import Mathlib

/-!
Verification of the funhub-api anti-cheat score-submission pipeline.

The definitions below are a shallow embedding of `src/app/api/games.py` and
`src/app/api/leaderboard.py`.  The backing relational store (supabase tables
`players`, `games`, `leaderboards`, `game_sessions`) is modelled as lists of
records inside a `Store` structure; each query helper of the source is a Lean
function on `Store`.  Timestamps and elapsed times are modelled as rationals
(the Python code uses binary floats; at every decision point exercised by the
theorems below the float computation yields the exact values 150.0 and 15.0,
so the rational model agrees with the code there).  Score validation takes
`started_at` and `now` explicitly, mirroring `elapsed_seconds = now - started_at`.
-/

namespace FunHub

/-- Row of the `players` table (fields used by the pipeline). -/
structure Player where
  pid : Nat
  device_id : String
  display_name : String
  local_credits : Int
  last_active_at : ℚ
  updated_at : ℚ
  deriving Repr, DecidableEq

/-- Row of the `leaderboards` table. -/
structure LBEntry where
  eid : Nat
  game_id : Nat
  player_id : Nat
  score : Int
  created_at : ℚ
  deriving Repr, DecidableEq

/-- Row of the `game_sessions` table (the consumed-session ledger). -/
structure SessionRow where
  session_token : String
  player_id : Nat
  game_id : Nat
  score : Int
  started_at : ℚ
  ended_at : ℚ
  deriving Repr, DecidableEq

/-- The relational store backing the API.  `games` maps slug to game id;
`nextId` supplies fresh row ids (the DB generates UUIDs). -/
structure Store where
  players : List Player
  games : List (String × Nat)
  leaderboards : List LBEntry
  game_sessions : List SessionRow
  nextId : Nat
  deriving Repr, DecidableEq

/-- The claims carried by a verified game-session JWT
(`GameSessionPayload` in `games.py`). -/
structure SessionClaims where
  session_id : String
  game_slug : String
  device_id : String
  started_at : ℚ
  deriving Repr, DecidableEq

/-- `VALID_GAMES` from `games.py`. -/
def VALID_GAMES : List String := ["mixmo", "quizmo"]

/-- `SCORE_RULES` from `games.py`: slug to (max_score_per_second, max_absolute).
quizmo: 10/6 points per second, cap 10000; mixmo: 1/12 per second, cap 1000. -/
def SCORE_RULES (slug : String) : Option (ℚ × Int) :=
  if slug = "quizmo" then some (10/6, 10000)
  else if slug = "mixmo" then some (1/12, 1000)
  else none

/-- `validate_score` from `games.py`: reject negative scores, reject when the
elapsed time `now - started_at` is under one second, accept when no rules are
configured, otherwise apply the absolute cap and the rate-based cap with the
1.5 buffer (`max_possible * 1.5` where `max_possible = elapsed * rate`).
Returns (is_valid, reason). -/
def validateScore (game_slug : String) (score : Int) (started_at now : ℚ) :
    Bool × String :=
  if score < 0 then (false, "Score cannot be negative")
  else if now - started_at < 1 then (false, "Game ended too quickly")
  else
    match SCORE_RULES game_slug with
    | none => (true, "No rules defined")
    | some (rate, cap) =>
      if score > cap then (false, "Score exceeds maximum allowed")
      else if (score : ℚ) > (now - started_at) * rate * (3/2) then
        (false, "Score too high for elapsed time")
      else (true, "Valid")

/-- `check_session_used` from `games.py`: the select on `game_sessions`
by `session_token` returns a nonempty result. -/
def checkSessionUsed (st : Store) (session_token : String) : Bool :=
  st.game_sessions.any (fun r => r.session_token == session_token)

/-- `get_player_id_by_device` from `games.py`. -/
def getPlayerIdByDevice (st : Store) (device_id : String) : Option Nat :=
  (st.players.find? (fun p => p.device_id == device_id)).map Player.pid

/-- `get_game_id_by_slug` from `games.py` (same query as `get_game_id` in
`leaderboard.py`, which raises 404 on `none`). -/
def getGameIdBySlug (st : Store) (game_slug : String) : Option Nat :=
  (st.games.find? (fun g => g.1 == game_slug)).map Prod.snd

/-- `mark_session_used` from `games.py`: resolves player and game; if either
resolution fails the mark is a no-op, otherwise a `game_sessions` row is
inserted. -/
def markSessionUsed (st : Store) (session_token game_slug device_id : String)
    (score : Int) (started_at now : ℚ) : Store :=
  match getPlayerIdByDevice st device_id, getGameIdBySlug st game_slug with
  | some pid, some gid =>
      { st with game_sessions :=
          st.game_sessions ++ [⟨session_token, pid, gid, score, started_at, now⟩] }
  | _, _ => st

/-- `get_or_create_player` from `leaderboard.py`: if a player with this
`device_id` exists, update its `display_name`, `last_active_at`, `updated_at`
(update is keyed by the player id); otherwise insert a fresh player.
Returns (player id, updated store). -/
def getOrCreatePlayer (st : Store) (device_id display_name : String) (now : ℚ) :
    Nat × Store :=
  match st.players.find? (fun p => p.device_id == device_id) with
  | some p =>
      (p.pid,
        { st with players := st.players.map (fun q =>
            if q.pid == p.pid then
              { q with display_name := display_name,
                       last_active_at := now, updated_at := now }
            else q) })
  | none =>
      (st.nextId,
        { st with
            players := st.players ++
              [{ pid := st.nextId, device_id := device_id,
                 display_name := display_name, local_credits := 0,
                 last_active_at := now, updated_at := now }],
            nextId := st.nextId + 1 })

/-- The best-score upsert inlined in `submit_score` (leaderboard.py, step 6):
look up the (game_id, player_id) entry; if present, update its score only when
the new score is strictly greater; otherwise insert.  Returns
(updated store, is_new_best). -/
def upsertIfBetter (st : Store) (gid pid : Nat) (score : Int) (now : ℚ) :
    Store × Bool :=
  match st.leaderboards.find? (fun e => e.game_id == gid && e.player_id == pid) with
  | some e =>
      if score > e.score then
        ({ st with leaderboards := st.leaderboards.map (fun x =>
             if x.eid == e.eid then { x with score := score } else x) }, true)
      else (st, false)
  | none =>
      ({ st with
           leaderboards := st.leaderboards ++ [⟨st.nextId, gid, pid, score, now⟩],
           nextId := st.nextId + 1 }, true)

/-- The rank count of `submit_score` step 7 and `get_my_rank`: number of
`leaderboards` rows of the game with score strictly greater than the given
score. -/
def rankCount (entries : List LBEntry) (gid : Nat) (score : Int) : Nat :=
  (entries.filter (fun e => e.game_id == gid && decide (score < e.score))).length

/-- The stored score, if any, of (game, player) — the select of the upsert. -/
def bestScore (st : Store) (gid pid : Nat) : Option Int :=
  (st.leaderboards.find? (fun e => e.game_id == gid && e.player_id == pid)).map
    LBEntry.score

/-- `body.display_name or "Anonymous"` (leaderboard.py line 147): Python `or`
treats both a missing and an empty display name as falsy. -/
def displayNameOrAnon (dn : Option String) : String :=
  match dn with
  | some s => if s == "" then "Anonymous" else s
  | none => "Anonymous"

/-- Errors raised by `submit_score` (HTTPException detail strings of the
source, as tags).  Token signature or expiry failures happen before the
session claims exist and are outside this model. -/
inductive SubmitError where
  | invalidGame
  | wrongGame
  | alreadyUsed
  | validationFailed
  | gameNotFound
  deriving Repr, DecidableEq

/-- `ScoreSubmitResponse` on the success path (`success` is always true
there). -/
structure SubmitOk where
  rank : Nat
  is_new_best : Bool
  message : String
  deriving Repr, DecidableEq

/-- Steps 4–6 of `submit_score` once the game id has resolved to `gid`: mark
the session (soft), resolve or create the player from the device id with the
effective display name, then upsert the best score.  Returns the resulting
store and the `is_new_best` flag. -/
def submitPipeline (st : Store) (game_slug : String) (sess : SessionClaims)
    (score : Int) (display_name : Option String) (now : ℚ) (gid : Nat) :
    Store × Bool :=
  upsertIfBetter
    (getOrCreatePlayer
      (markSessionUsed st sess.session_id game_slug sess.device_id score
        sess.started_at now)
      sess.device_id (displayNameOrAnon display_name) now).2
    gid
    (getOrCreatePlayer
      (markSessionUsed st sess.session_id game_slug sess.device_id score
        sess.started_at now)
      sess.device_id (displayNameOrAnon display_name) now).1
    score now

/-- `submit_score` from `leaderboard.py`, given the already-verified session
claims: valid-game check, token/path game match, consumed-session check,
score validation, then mark-session (soft), game id resolution (404 on
failure, after the mark), player resolve/create, best-score upsert and rank
computation (`submitPipeline`). -/
def submitScore (st : Store) (game_slug : String) (sess : SessionClaims)
    (score : Int) (display_name : Option String) (now : ℚ) :
    Store × Except SubmitError SubmitOk :=
  if ¬ VALID_GAMES.contains game_slug then (st, .error .invalidGame)
  else if sess.game_slug ≠ game_slug then (st, .error .wrongGame)
  else if checkSessionUsed st sess.session_id then (st, .error .alreadyUsed)
  else if ¬ (validateScore game_slug score sess.started_at now).1 then
    (st, .error .validationFailed)
  else
    match getGameIdBySlug (markSessionUsed st sess.session_id game_slug
        sess.device_id score sess.started_at now) game_slug with
    | none =>
        (markSessionUsed st sess.session_id game_slug sess.device_id score
          sess.started_at now, .error .gameNotFound)
    | some gid =>
        let ub := submitPipeline st game_slug sess score display_name now gid
        let rank := rankCount ub.1.leaderboards gid score + 1
        (ub.1, .ok ⟨rank, ub.2,
          if ub.2 then s!"New personal best! You ranked #{rank}"
          else s!"Score submitted. Your best is still higher. Current rank: #{rank}"⟩)

/-- One call to the submit endpoint: path slug, verified session claims,
score, optional display name, and the wall-clock time of the call. -/
structure SubmitCall where
  game_slug : String
  sess : SessionClaims
  score : Int
  display_name : Option String
  now : ℚ
  deriving Repr, DecidableEq

/-- Apply one submit call to the store. -/
def applyCall (st : Store) (c : SubmitCall) : Store × Except SubmitError SubmitOk :=
  submitScore st c.game_slug c.sess c.score c.display_name c.now

/-- Run a sequence of submit calls, keeping the final store. -/
def runCalls (st : Store) (cs : List SubmitCall) : Store :=
  cs.foldl (fun a c => (applyCall a c).1) st

/-- Display name joined from `players` in `get_leaderboard`
(missing join row falls back to "Anonymous"). -/
def displayNameOf (st : Store) (pid : Nat) : String :=
  match st.players.find? (fun p => p.pid == pid) with
  | some p => p.display_name
  | none => "Anonymous"

/-- Insert an entry into a score-descending list (models ORDER BY score DESC). -/
def insertDesc (e : LBEntry) : List LBEntry → List LBEntry
  | [] => [e]
  | a :: t => if decide (e.score ≤ a.score) then a :: insertDesc e t
              else e :: a :: t

/-- Sort entries by score descending. -/
def sortByScoreDesc : List LBEntry → List LBEntry
  | [] => []
  | a :: t => insertDesc a (sortByScoreDesc t)

/-- One entry of the `GET /leaderboard/{game_slug}` response. -/
structure OutEntry where
  rank : Nat
  display_name : String
  score : Int
  created_at : ℚ
  deriving Repr, DecidableEq

/-- `enumerate(result.data)` with `rank=idx+1` in `get_leaderboard`:
assign ranks positionally starting at `k + 1`. -/
def rankEntriesFrom (st : Store) (k : Nat) : List LBEntry → List OutEntry
  | [] => []
  | e :: t =>
      ⟨k + 1, displayNameOf st e.player_id, e.score, e.created_at⟩ ::
        rankEntriesFrom st (k + 1) t

/-- `get_leaderboard` entry construction, `period=alltime` branch: filter the
game's rows, order by score descending, truncate to `limit`, and number the
resulting positions 1, 2, 3, …. -/
def getLeaderboardEntries (st : Store) (gid : Nat) (lim : Nat) : List OutEntry :=
  rankEntriesFrom st 0
    ((sortByScoreDesc (st.leaderboards.filter (fun e => e.game_id == gid))).take lim)

/-- The rank reported by `GET /leaderboard/{game_slug}/me` for a player with a
stored score: strict-greater-than count over the stored best, plus 1. -/
def myRank (st : Store) (gid pid : Nat) : Option Nat :=
  (bestScore st gid pid).map (fun b => rankCount st.leaderboards gid b + 1)

/-! ### Concrete stores and calls used by the concrete theorems below -/

/-- A `games` table containing only quizmo, with id 1. -/
def demoGames : List (String × Nat) := [("quizmo", 1)]

/-- A store whose `games` table knows quizmo but that has never seen any
player: the state before a brand-new device's first submission. -/
def freshDeviceStore : Store := ⟨[], demoGames, [], [], 10⟩

/-- A player row for device d1. -/
def bobPlayer : Player := ⟨5, "d1", "Bob", 0, 0, 0⟩

/-- A store that already has a player row for device d1. -/
def knownPlayerStore : Store := ⟨[bobPlayer], demoGames, [], [], 10⟩

/-- A store with a player row for d1 but an empty `games` table. -/
def noGameStore : Store := ⟨[bobPlayer], [], [], [], 10⟩

/-- Verified claims of a quizmo session for device d1 started at time 0. -/
def demoSess : SessionClaims := ⟨"s1", "quizmo", "d1", 0⟩

/-- First submit call carrying `demoSess`: score 50 at time 60. -/
def demoCallA : SubmitCall := ⟨"quizmo", demoSess, 50, none, 60⟩

/-- Replay of `demoSess`: score 80 at time 120. -/
def demoCallB : SubmitCall := ⟨"quizmo", demoSess, 80, none, 120⟩

/-- A store where player 1 (device d1) has stored best 100 and player 3 has
80 for the same game. -/
def bestStore : Store :=
  ⟨[⟨1, "d1", "A", 0, 0, 0⟩, ⟨2, "d2", "B", 0, 0, 0⟩, ⟨3, "d3", "C", 0, 0, 0⟩],
   demoGames, [⟨100, 1, 1, 100, 0⟩, ⟨101, 1, 3, 80, 0⟩], [], 200⟩

/-- A store with a single leaderboard entry of score 100 for (game 1,
player 1). -/
def capStore : Store := ⟨[], demoGames, [⟨0, 1, 1, 100, 0⟩], [], 5⟩

/-- A store with two tied leaderboard entries (both score 100) for game 1. -/
def tiedStore : Store :=
  ⟨[⟨1, "d1", "A", 0, 0, 0⟩, ⟨2, "d2", "B", 0, 0, 0⟩], demoGames,
   [⟨100, 1, 1, 100, 0⟩, ⟨101, 1, 2, 100, 0⟩], [], 200⟩

/-- A store with a player row named Old for d1 and a stored best of 100. -/
def renameStore : Store :=
  ⟨[⟨1, "d1", "Old", 0, 0, 0⟩], demoGames, [⟨7, 1, 1, 100, 0⟩], [], 20⟩

/-! ### Frame lemmas for the individual store operations -/

lemma markSessionUsed_players (st : Store) (tok gs dev : String) (s : Int)
    (t n : ℚ) : (markSessionUsed st tok gs dev s t n).players = st.players := by
  unfold markSessionUsed; split <;> rfl

lemma markSessionUsed_games (st : Store) (tok gs dev : String) (s : Int)
    (t n : ℚ) : (markSessionUsed st tok gs dev s t n).games = st.games := by
  unfold markSessionUsed; split <;> rfl

lemma markSessionUsed_leaderboards (st : Store) (tok gs dev : String) (s : Int)
    (t n : ℚ) :
    (markSessionUsed st tok gs dev s t n).leaderboards = st.leaderboards := by
  unfold markSessionUsed; split <;> rfl

lemma markSessionUsed_nextId (st : Store) (tok gs dev : String) (s : Int)
    (t n : ℚ) : (markSessionUsed st tok gs dev s t n).nextId = st.nextId := by
  unfold markSessionUsed; split <;> rfl

lemma markSessionUsed_game_sessions (st : Store) (tok gs dev : String) (s : Int)
    (t n : ℚ) : ∃ tail, (markSessionUsed st tok gs dev s t n).game_sessions =
      st.game_sessions ++ tail := by
  unfold markSessionUsed
  split
  · exact ⟨_, rfl⟩
  · exact ⟨[], (List.append_nil _).symm⟩

lemma markSessionUsed_of_player_none (st : Store) (tok gs dev : String) (s : Int)
    (t n : ℚ) (h : getPlayerIdByDevice st dev = none) :
    markSessionUsed st tok gs dev s t n = st := by
  unfold markSessionUsed
  rw [h]

lemma markSessionUsed_of_game_none (st : Store) (tok gs dev : String) (s : Int)
    (t n : ℚ) (h : getGameIdBySlug st gs = none) :
    markSessionUsed st tok gs dev s t n = st := by
  unfold markSessionUsed
  rw [h]
  cases getPlayerIdByDevice st dev <;> rfl

lemma markSessionUsed_of_some (st : Store) (tok gs dev : String) (s : Int)
    (t n : ℚ) (pid gid : Nat) (hp : getPlayerIdByDevice st dev = some pid)
    (hg : getGameIdBySlug st gs = some gid) :
    markSessionUsed st tok gs dev s t n =
      { st with game_sessions := st.game_sessions ++ [⟨tok, pid, gid, s, t, n⟩] } := by
  unfold markSessionUsed
  rw [hp, hg]

lemma getOrCreatePlayer_games (st : Store) (dev nm : String) (now : ℚ) :
    (getOrCreatePlayer st dev nm now).2.games = st.games := by
  unfold getOrCreatePlayer; split <;> rfl

lemma getOrCreatePlayer_leaderboards (st : Store) (dev nm : String) (now : ℚ) :
    (getOrCreatePlayer st dev nm now).2.leaderboards = st.leaderboards := by
  unfold getOrCreatePlayer; split <;> rfl

lemma getOrCreatePlayer_game_sessions (st : Store) (dev nm : String) (now : ℚ) :
    (getOrCreatePlayer st dev nm now).2.game_sessions = st.game_sessions := by
  unfold getOrCreatePlayer; split <;> rfl

lemma upsertIfBetter_players (st : Store) (gid pid : Nat) (s : Int) (now : ℚ) :
    (upsertIfBetter st gid pid s now).1.players = st.players := by
  unfold upsertIfBetter
  split
  · split <;> rfl
  · rfl

lemma upsertIfBetter_games (st : Store) (gid pid : Nat) (s : Int) (now : ℚ) :
    (upsertIfBetter st gid pid s now).1.games = st.games := by
  unfold upsertIfBetter
  split
  · split <;> rfl
  · rfl

lemma upsertIfBetter_game_sessions (st : Store) (gid pid : Nat) (s : Int)
    (now : ℚ) : (upsertIfBetter st gid pid s now).1.game_sessions =
      st.game_sessions := by
  unfold upsertIfBetter
  split
  · split <;> rfl
  · rfl

lemma getGameIdBySlug_mark (st : Store) (tok gs0 dev : String) (s : Int)
    (t n : ℚ) (gs : String) :
    getGameIdBySlug (markSessionUsed st tok gs0 dev s t n) gs =
      getGameIdBySlug st gs := by
  unfold getGameIdBySlug
  rw [markSessionUsed_games]

/-! ### Characterizations of the `submit_score` control flow -/

/-- On the happy path the endpoint runs the mark/resolve/upsert pipeline and
reports the strict-greater-than rank of the submitted score. -/
lemma submitScore_of_checks (st : Store) (gs : String) (sess : SessionClaims)
    (s : Int) (dn : Option String) (now : ℚ) (gid : Nat)
    (h1 : VALID_GAMES.contains gs = true)
    (h2 : sess.game_slug = gs)
    (h3 : checkSessionUsed st sess.session_id = false)
    (h4 : (validateScore gs s sess.started_at now).1 = true)
    (h5 : getGameIdBySlug st gs = some gid) :
    (submitScore st gs sess s dn now).1 = (submitPipeline st gs sess s dn now gid).1 ∧
    ∃ r, (submitScore st gs sess s dn now).2 = .ok r ∧
      r.rank = rankCount (submitPipeline st gs sess s dn now gid).1.leaderboards gid s + 1 ∧
      r.is_new_best = (submitPipeline st gs sess s dn now gid).2 := by
  unfold submitScore
  rw [if_neg (not_not_intro h1), if_neg (not_not_intro h2),
    if_neg (by simp [h3]), if_neg (not_not_intro h4)]
  rw [getGameIdBySlug_mark, h5]
  exact ⟨rfl, _, rfl, rfl, rfl⟩

/-- A successful submission implies every gate was passed and the result store
is the pipeline store. -/
lemma submitScore_ok_inv (st : Store) (gs : String) (sess : SessionClaims)
    (s : Int) (dn : Option String) (now : ℚ) (st' : Store) (r : SubmitOk)
    (h : submitScore st gs sess s dn now = (st', .ok r)) :
    VALID_GAMES.contains gs = true ∧
    sess.game_slug = gs ∧
    checkSessionUsed st sess.session_id = false ∧
    (validateScore gs s sess.started_at now).1 = true ∧
    ∃ gid, getGameIdBySlug st gs = some gid ∧
      st' = (submitPipeline st gs sess s dn now gid).1 ∧
      r.rank = rankCount st'.leaderboards gid s + 1 ∧
      r.is_new_best = (submitPipeline st gs sess s dn now gid).2 := by
  by_cases h1 : VALID_GAMES.contains gs = true
  · by_cases h2 : sess.game_slug = gs
    · by_cases h3 : checkSessionUsed st sess.session_id = false
      · by_cases h4 : (validateScore gs s sess.started_at now).1 = true
        · cases h5 : getGameIdBySlug st gs with
          | none =>
            exfalso
            unfold submitScore at h
            rw [if_neg (not_not_intro h1), if_neg (not_not_intro h2),
              if_neg (by simp [h3]), if_neg (not_not_intro h4),
              getGameIdBySlug_mark, h5] at h
            exact Except.noConfusion (congrArg Prod.snd h)
          | some gid =>
            obtain ⟨he1, r', he2, he3, he4⟩ :=
              submitScore_of_checks st gs sess s dn now gid h1 h2 h3 h4 h5
            have hst : st' = (submitPipeline st gs sess s dn now gid).1 := by
              rw [← he1, h]
            have hr : r' = r := by
              have hh := he2; rw [h] at hh; exact (Except.ok.inj hh).symm
            refine ⟨h1, h2, h3, h4, gid, rfl, hst, ?_, ?_⟩
            · rw [← hr, he3, ← hst]
            · rw [← hr, he4]
        · exfalso
          unfold submitScore at h
          rw [if_neg (not_not_intro h1), if_neg (not_not_intro h2),
            if_neg (by simp [h3]), if_pos h4] at h
          exact Except.noConfusion (congrArg Prod.snd h)
      · exfalso
        have h3' : checkSessionUsed st sess.session_id = true := by
          revert h3; cases checkSessionUsed st sess.session_id <;> simp
        unfold submitScore at h
        rw [if_neg (not_not_intro h1), if_neg (not_not_intro h2), if_pos h3'] at h
        exact Except.noConfusion (congrArg Prod.snd h)
    · exfalso
      unfold submitScore at h
      rw [if_neg (not_not_intro h1), if_pos h2] at h
      exact Except.noConfusion (congrArg Prod.snd h)
  · exfalso
    unfold submitScore at h
    rw [if_pos h1] at h
    exact Except.noConfusion (congrArg Prod.snd h)

/-- A consumed session is rejected with the already-used error, untouched
store. -/
lemma submitScore_alreadyUsed (st : Store) (gs : String) (sess : SessionClaims)
    (s : Int) (dn : Option String) (now : ℚ)
    (h1 : VALID_GAMES.contains gs = true)
    (h2 : sess.game_slug = gs)
    (h3 : checkSessionUsed st sess.session_id = true) :
    submitScore st gs sess s dn now = (st, .error .alreadyUsed) := by
  unfold submitScore
  rw [if_neg (not_not_intro h1), if_neg (not_not_intro h2), if_pos h3]

/-- The pipeline only appends to the consumed-session ledger. -/
lemma submitPipeline_game_sessions (st : Store) (gs : String)
    (sess : SessionClaims) (s : Int) (dn : Option String) (now : ℚ) (gid : Nat) :
    ∃ tail, (submitPipeline st gs sess s dn now gid).1.game_sessions =
      st.game_sessions ++ tail := by
  unfold submitPipeline
  rw [upsertIfBetter_game_sessions, getOrCreatePlayer_game_sessions]
  exact markSessionUsed_game_sessions st _ _ _ _ _ _

/-- The consumed-session ledger only ever grows across a submit call. -/
lemma submitScore_game_sessions (st : Store) (gs : String) (sess : SessionClaims)
    (s : Int) (dn : Option String) (now : ℚ) :
    ∃ tail, (submitScore st gs sess s dn now).1.game_sessions =
      st.game_sessions ++ tail := by
  unfold submitScore
  split
  · exact ⟨[], (List.append_nil _).symm⟩
  split
  · exact ⟨[], (List.append_nil _).symm⟩
  split
  · exact ⟨[], (List.append_nil _).symm⟩
  split
  · exact ⟨[], (List.append_nil _).symm⟩
  split
  · exact markSessionUsed_game_sessions st _ _ _ _ _ _
  · show ∃ tail, (submitPipeline st gs sess s dn now _).1.game_sessions =
      st.game_sessions ++ tail
    exact submitPipeline_game_sessions st gs sess s dn now _

/-- Once marked, a session stays marked across any submit call. -/
lemma checkSessionUsed_submit (st : Store) (gs : String) (sess : SessionClaims)
    (s : Int) (dn : Option String) (now : ℚ) (tok : String)
    (h : checkSessionUsed st tok = true) :
    checkSessionUsed (submitScore st gs sess s dn now).1 tok = true := by
  obtain ⟨tail, ht⟩ := submitScore_game_sessions st gs sess s dn now
  unfold checkSessionUsed at h ⊢
  rw [ht, List.any_append, h]
  rfl

/-- Once marked, a session stays marked across any sequence of submit calls. -/
lemma checkSessionUsed_runCalls (st : Store) (cs : List SubmitCall) (tok : String)
    (h : checkSessionUsed st tok = true) :
    checkSessionUsed (runCalls st cs) tok = true := by
  induction cs generalizing st with
  | nil => exact h
  | cons c t ih =>
    have : runCalls st (c :: t) = runCalls (applyCall st c).1 t := rfl
    rw [this]
    exact ih _ (checkSessionUsed_submit _ _ _ _ _ _ _ h)

/-! ### The score validator -/

lemma validateScore_accept_iff (g : String) (rate : ℚ) (cap : Int) (s : Int)
    (t n : ℚ) (hr : SCORE_RULES g = some (rate, cap)) (hs : 0 ≤ s)
    (he : 1 ≤ n - t) :
    (validateScore g s t n).1 = true ↔
      (s ≤ cap ∧ (s : ℚ) ≤ (n - t) * rate * (3/2)) := by
  unfold validateScore
  rw [if_neg (not_lt.mpr hs), if_neg (not_lt.mpr he)]
  simp only [hr]
  by_cases h1 : s > cap
  · rw [if_pos h1]
    simp [not_le.mpr h1]
  · rw [if_neg h1]
    by_cases h2 : (s : ℚ) > (n - t) * rate * (3/2)
    · rw [if_pos h2]
      simp [not_le.mpr h2]
    · rw [if_neg h2]
      simp [not_lt.mp h1, not_lt.mp h2]

lemma validateScore_none (g : String) (s : Int) (t n : ℚ)
    (hr : SCORE_RULES g = none) (hs : 0 ≤ s) (he : 1 ≤ n - t) :
    (validateScore g s t n).1 = true := by
  unfold validateScore
  rw [if_neg (not_lt.mpr hs), if_neg (not_lt.mpr he)]
  simp only [hr]

lemma validateScore_true_nonneg (g : String) (s : Int) (t n : ℚ)
    (h : (validateScore g s t n).1 = true) : 0 ≤ s ∧ 1 ≤ n - t := by
  by_cases h1 : s < 0
  · exfalso
    unfold validateScore at h
    rw [if_pos h1] at h
    exact Bool.noConfusion h
  by_cases h2 : n - t < 1
  · exfalso
    unfold validateScore at h
    rw [if_neg h1, if_pos h2] at h
    exact Bool.noConfusion h
  exact ⟨not_lt.mp h1, not_lt.mp h2⟩

/-! ### find? through the keyed updates -/

/-- Mapping a function that preserves the selection predicate maps the first
hit of the selection. -/
lemma find?_map_eq_of_pred {α : Type} (f : α → α) (p : α → Bool) (l : List α)
    (a : α) (hpres : ∀ x, p (f x) = p x) (h : l.find? p = some a) :
    (l.map f).find? p = some (f a) := by
  induction l with
  | nil => simp at h
  | cons x tl ih =>
    cases hx : p x with
    | true =>
      rw [List.find?_cons_of_pos tl hx] at h
      have hxa : x = a := Option.some.inj h
      subst hxa
      rw [List.map_cons]
      exact List.find?_cons_of_pos _ ((hpres x).trans hx)
    | false =>
      rw [List.find?_cons_of_neg tl (by simp [hx])] at h
      rw [List.map_cons, List.find?_cons_of_neg _ (by simp [hpres x, hx])]
      exact ih h

/-- The score update of `upsertIfBetter` is keyed by the row id of the row
that the select found, so re-selecting by (game, player) finds the updated
row. -/
lemma find?_update_entry (l : List LBEntry) (gid pid : Nat) (s : Int)
    (e : LBEntry)
    (h : l.find? (fun x => x.game_id == gid && x.player_id == pid) = some e) :
    (l.map (fun x => if x.eid == e.eid then { x with score := s } else x)).find?
      (fun x => x.game_id == gid && x.player_id == pid) =
      some { e with score := s } := by
  have h2 := find?_map_eq_of_pred
    (fun x : LBEntry => if x.eid == e.eid then { x with score := s } else x)
    (fun x => x.game_id == gid && x.player_id == pid) l e
    (fun x => by by_cases hx : (x.eid == e.eid) = true <;> simp [hx]) h
  simpa using h2

/-- The display-name update of `get_or_create_player` is keyed by the id of
the player the select found, so re-selecting by device finds the updated
player. -/
lemma find?_update_player (l : List Player) (d nm : String) (now : ℚ)
    (p : Player) (h : l.find? (fun q => q.device_id == d) = some p) :
    (l.map (fun q => if q.pid == p.pid then
        { q with display_name := nm, last_active_at := now, updated_at := now }
      else q)).find? (fun q => q.device_id == d) =
      some { p with display_name := nm, last_active_at := now,
                    updated_at := now } := by
  have h2 := find?_map_eq_of_pred
    (fun q : Player => if q.pid == p.pid then
      { q with display_name := nm, last_active_at := now, updated_at := now }
    else q)
    (fun q => q.device_id == d) l p
    (fun x => by by_cases hx : (x.pid == p.pid) = true <;> simp [hx]) h
  simpa using h2

/-- Players whose id differs from the updated one pass through the
display-name update untouched. -/
lemma mem_update_player (l : List Player) (p q : Player) (nm : String) (now : ℚ)
    (hq : q ∈ l) (hne : q.pid ≠ p.pid) :
    q ∈ l.map (fun x => if x.pid == p.pid then
        { x with display_name := nm, last_active_at := now, updated_at := now }
      else x) := by
  have hmem := List.mem_map_of_mem (fun x : Player => if x.pid == p.pid then
      { x with display_name := nm, last_active_at := now, updated_at := now }
    else x) hq
  simpa [hne] using hmem

/-! ### The best-score upsert -/

/-- With no stored entry for (game, player), the upsert inserts the submitted
score and reports a new best. -/
lemma upsertIfBetter_of_none (st : Store) (gid pid : Nat) (s : Int) (now : ℚ)
    (h : bestScore st gid pid = none) :
    (upsertIfBetter st gid pid s now).2 = true ∧
    bestScore (upsertIfBetter st gid pid s now).1 gid pid = some s := by
  have hf : st.leaderboards.find?
      (fun e => e.game_id == gid && e.player_id == pid) = none := by
    unfold bestScore at h
    exact Option.map_eq_none'.mp h
  unfold upsertIfBetter
  rw [hf]
  refine ⟨rfl, ?_⟩
  unfold bestScore
  rw [List.find?_append, hf]
  simp

/-- With a stored entry of score `old`, the upsert keeps `max old s`,
reports a new best exactly when `old < s`, and is the identity otherwise. -/
lemma upsertIfBetter_of_some (st : Store) (gid pid : Nat) (s : Int) (now : ℚ)
    (old : Int) (h : bestScore st gid pid = some old) :
    (upsertIfBetter st gid pid s now).2 = decide (old < s) ∧
    bestScore (upsertIfBetter st gid pid s now).1 gid pid = some (max old s) ∧
    (¬ old < s → upsertIfBetter st gid pid s now = (st, false)) := by
  obtain ⟨e, hf, he⟩ : ∃ e, st.leaderboards.find?
      (fun x => x.game_id == gid && x.player_id == pid) = some e ∧
      e.score = old := by
    unfold bestScore at h
    cases hfind : st.leaderboards.find?
        (fun x => x.game_id == gid && x.player_id == pid) with
    | none => rw [hfind] at h; simp at h
    | some e =>
      rw [hfind] at h
      exact ⟨e, rfl, Option.some.inj h⟩
  subst he
  unfold upsertIfBetter
  simp only [hf]
  by_cases hlt : s > e.score
  · rw [if_pos hlt]
    refine ⟨by simp [hlt], ?_, fun hc => absurd hlt hc⟩
    unfold bestScore
    rw [find?_update_entry st.leaderboards gid pid s e hf]
    simp [max_eq_right (le_of_lt hlt)]
  · rw [if_neg hlt]
    refine ⟨by simp [hlt], ?_, fun _ => rfl⟩
    unfold bestScore
    rw [hf]
    simp [max_eq_left (not_lt.mp hlt)]

/-! ### Positional ranks in the listing endpoint -/

lemma rankEntriesFrom_get_rank (st : Store) (l : List LBEntry) :
    ∀ (k i : Nat) (h : i < (rankEntriesFrom st k l).length),
    ((rankEntriesFrom st k l).get ⟨i, h⟩).rank = k + i + 1 := by
  induction l with
  | nil => intro k i h; simp [rankEntriesFrom] at h
  | cons e tl ih =>
    intro k i h
    cases i with
    | zero => simp [rankEntriesFrom]
    | succ j =>
      have hlen : j < (rankEntriesFrom st (k + 1) tl).length := by
        have := h
        simp only [rankEntriesFrom, List.length_cons] at this
        omega
      have hih := ih (k + 1) j hlen
      have hget : ((rankEntriesFrom st k (e :: tl)).get ⟨j + 1, h⟩) =
          ((rankEntriesFrom st (k + 1) tl).get ⟨j, hlen⟩) := rfl
      rw [hget, hih]
      omega

/-! ### Claims -/

/-- C7: `validate_score` accepts only when the score is nonnegative and at
least one second has elapsed since `started_at`: whenever it accepts,
`0 ≤ score` and `1 ≤ now - started_at`; contrapositively every negative score
and every sub-second submission is rejected, for every game. -/
theorem claim_C7 : ∀ (g : String) (s : Int) (t n : ℚ),
    (validateScore g s t n).1 = true → 0 ≤ s ∧ 1 ≤ n - t :=
  fun g s t n h => validateScore_true_nonneg g s t n h

/-- C7 witness: the theorem applied to quizmo, score 50, elapsed 60. -/
theorem claim_C7_witness : 0 ≤ (50 : Int) ∧ 1 ≤ (60 : ℚ) - 0 :=
  claim_C7 "quizmo" 50 0 60 (by with_unfolding_all decide)

/-- C8: for a game slug with no registered rule set, `validate_score` accepts
every score that passes the negative-score and minimum-elapsed checks,
however large. -/
theorem claim_C8 : ∀ (g : String) (s : Int) (t n : ℚ),
    SCORE_RULES g = none → 0 ≤ s → 1 ≤ n - t →
    (validateScore g s t n).1 = true :=
  fun g s t n hr hs he => validateScore_none g s t n hr hs he

/-- C8 witness: an unconfigured slug accepts an astronomically large score. -/
theorem claim_C8_witness : (validateScore "tetris" 999999999 0 60).1 = true :=
  claim_C8 "tetris" 999999999 0 60 (by with_unfolding_all decide)
    (by norm_num) (by norm_num)

/-- C3: with a nonnegative score and at least one second elapsed, the
validator for each configured game accepts exactly the scores within both the
absolute cap and `elapsed * max_score_per_second * 1.5`; concretely quizmo at
60 s accepts every score up to 150 and rejects 151, and mixmo at 120 s
accepts up to 15 and rejects 16. -/
theorem claim_C3 :
    (∀ (s : Int) (t n : ℚ), 0 ≤ s → 1 ≤ n - t →
        ((validateScore "quizmo" s t n).1 = true ↔
          (s ≤ 10000 ∧ (s : ℚ) ≤ (n - t) * (10/6) * (3/2)))) ∧
    (∀ (s : Int) (t n : ℚ), 0 ≤ s → 1 ≤ n - t →
        ((validateScore "mixmo" s t n).1 = true ↔
          (s ≤ 1000 ∧ (s : ℚ) ≤ (n - t) * (1/12) * (3/2)))) ∧
    (∀ s : Int, 0 ≤ s → s ≤ 150 → (validateScore "quizmo" s 0 60).1 = true) ∧
    (validateScore "quizmo" 151 0 60).1 = false ∧
    (∀ s : Int, 0 ≤ s → s ≤ 15 → (validateScore "mixmo" s 0 120).1 = true) ∧
    (validateScore "mixmo" 16 0 120).1 = false := by
  have hq : SCORE_RULES "quizmo" = some (10/6, 10000) := by
    with_unfolding_all rfl
  have hm : SCORE_RULES "mixmo" = some (1/12, 1000) := by
    with_unfolding_all rfl
  refine ⟨?_, ?_, ?_, ?_, ?_, ?_⟩
  · intro s t n hs he
    exact validateScore_accept_iff "quizmo" _ _ s t n hq hs he
  · intro s t n hs he
    exact validateScore_accept_iff "mixmo" _ _ s t n hm hs he
  · intro s hs hle
    refine (validateScore_accept_iff "quizmo" _ _ s 0 60 hq hs
      (by norm_num)).mpr ⟨by omega, ?_⟩
    have h150 : ((60 : ℚ) - 0) * (10/6) * (3/2) = 150 := by norm_num
    rw [h150]
    exact_mod_cast hle
  · with_unfolding_all decide
  · intro s hs hle
    refine (validateScore_accept_iff "mixmo" _ _ s 0 120 hm hs
      (by norm_num)).mpr ⟨by omega, ?_⟩
    have h15 : ((120 : ℚ) - 0) * (1/12) * (3/2) = 15 := by norm_num
    rw [h15]
    exact_mod_cast hle
  · with_unfolding_all decide

/-- C3 witness: the quizmo rule instantiated at score 150, elapsed 60, and
the mixmo acceptance instantiated at score 15. -/
theorem claim_C3_witness :
    ((validateScore "quizmo" 150 0 60).1 = true ↔
      ((150 : Int) ≤ 10000 ∧
        ((150 : Int) : ℚ) ≤ ((60 : ℚ) - 0) * (10/6) * (3/2))) ∧
    (validateScore "mixmo" 15 0 120).1 = true :=
  ⟨claim_C3.1 150 0 60 (by norm_num) (by norm_num),
   claim_C3.2.2.2.2.1 15 (by norm_num) (by norm_num)⟩

/-- C2: when score validation fails (and the session was not already
consumed), `submit_score` rejects with the validation error and leaves the
store completely unchanged; in particular the session is still unconsumed
afterwards, so a later call with the same token is processed afresh rather
than rejected as already used. -/
theorem claim_C2 : ∀ (st : Store) (gs : String) (sess : SessionClaims)
    (s : Int) (dn : Option String) (now : ℚ),
    VALID_GAMES.contains gs = true → sess.game_slug = gs →
    checkSessionUsed st sess.session_id = false →
    (validateScore gs s sess.started_at now).1 = false →
    submitScore st gs sess s dn now = (st, .error .validationFailed) ∧
    checkSessionUsed (submitScore st gs sess s dn now).1 sess.session_id = false := by
  intro st gs sess s dn now h1 h2 h3 h4
  have hmain : submitScore st gs sess s dn now = (st, .error .validationFailed) := by
    unfold submitScore
    rw [if_neg (not_not_intro h1), if_neg (not_not_intro h2),
      if_neg (by simp [h3]), if_pos (by simp [h4])]
  refine ⟨hmain, ?_⟩
  rw [hmain]
  exact h3

/-- C2 witness: a zero-elapsed quizmo submission fails validation, leaves the
fresh store untouched, and keeps the session unconsumed. -/
theorem claim_C2_witness :
    submitScore freshDeviceStore "quizmo" demoSess 50 none 0 =
      (freshDeviceStore, .error .validationFailed) ∧
    checkSessionUsed (submitScore freshDeviceStore "quizmo" demoSess 50 none 0).1
      demoSess.session_id = false :=
  claim_C2 freshDeviceStore "quizmo" demoSess 50 none 0
    (by with_unfolding_all decide) (by with_unfolding_all decide)
    (by with_unfolding_all decide) (by with_unfolding_all decide)

/-- C4: the best-score upsert inserts and reports a new best when no entry
exists; with an existing entry of score `old` it stores `max old s`, reports
a new best exactly when the submitted score is strictly greater, and on a tie
or lower score leaves the store untouched and reports false. -/
theorem claim_C4 :
    (∀ (st : Store) (gid pid : Nat) (s : Int) (now : ℚ),
        bestScore st gid pid = none →
        (upsertIfBetter st gid pid s now).2 = true ∧
        bestScore (upsertIfBetter st gid pid s now).1 gid pid = some s) ∧
    (∀ (st : Store) (gid pid : Nat) (s : Int) (now : ℚ) (old : Int),
        bestScore st gid pid = some old →
        (upsertIfBetter st gid pid s now).2 = decide (old < s) ∧
        bestScore (upsertIfBetter st gid pid s now).1 gid pid = some (max old s) ∧
        (¬ old < s → upsertIfBetter st gid pid s now = (st, false))) :=
  ⟨fun st gid pid s now h => upsertIfBetter_of_none st gid pid s now h,
   fun st gid pid s now old h => upsertIfBetter_of_some st gid pid s now old h⟩

/-- C4 witness: with stored best 100, upserting 80 reports no new best,
keeps 100 and leaves the store unchanged. -/
theorem claim_C4_witness :
    (upsertIfBetter capStore 1 1 80 0).2 = decide ((100 : Int) < 80) ∧
    bestScore (upsertIfBetter capStore 1 1 80 0).1 1 1 = some (max 100 80) ∧
    (¬ (100 : Int) < 80 → upsertIfBetter capStore 1 1 80 0 = (capStore, false)) :=
  claim_C4.2 capStore 1 1 80 0 100 (by with_unfolding_all decide)

/-- C5: the rank returned by a successful `submit_score` is one more than the
number of leaderboard entries of the same game in the resulting store whose
score strictly exceeds the submitted score — the submitted score, not the
stored best, so a submission below the player's own best counts that best
among the strictly-greater entries. -/
theorem claim_C5 : ∀ (st : Store) (gs : String) (sess : SessionClaims)
    (s : Int) (dn : Option String) (now : ℚ) (st' : Store) (r : SubmitOk),
    submitScore st gs sess s dn now = (st', .ok r) →
    ∃ gid, getGameIdBySlug st gs = some gid ∧
      r.rank = rankCount st'.leaderboards gid s + 1 := by
  intro st gs sess s dn now st' r h
  obtain ⟨-, -, -, -, gid, h5, -, hrank, -⟩ :=
    submitScore_ok_inv st gs sess s dn now st' r h
  exact ⟨gid, h5, hrank⟩

/-- C5 witness: device d1 (stored best 100) submits 80; the returned rank 2
counts the player's own strictly-greater best. -/
theorem claim_C5_witness :
    ∃ gid, getGameIdBySlug bestStore "quizmo" = some gid ∧
      (⟨2, false,
        "Score submitted. Your best is still higher. Current rank: #2"⟩ :
          SubmitOk).rank =
        rankCount (submitScore bestStore "quizmo" demoSess 80 none
          60).1.leaderboards gid 80 + 1 :=
  claim_C5 bestStore "quizmo" demoSess 80 none 60
    (submitScore bestStore "quizmo" demoSess 80 none 60).1
    ⟨2, false, "Score submitted. Your best is still higher. Current rank: #2"⟩
    (by with_unfolding_all rfl)

/-- C1 counterexample: on a store that has never seen the device, the first
submission carrying session s1 succeeds but — because the session mark
soft-fails before the player row is created — a second submission carrying
the same session also succeeds (it is not rejected as already used) and it
changes the leaderboard from the stored 50 to 80. -/
theorem claim_C1_cex :
    (applyCall freshDeviceStore demoCallA).2 =
      .ok ⟨1, true, "New personal best! You ranked #1"⟩ ∧
    (applyCall (applyCall freshDeviceStore demoCallA).1 demoCallB).2 =
      .ok ⟨1, true, "New personal best! You ranked #1"⟩ ∧
    bestScore (applyCall freshDeviceStore demoCallA).1 1 10 = some 50 ∧
    bestScore (applyCall (applyCall freshDeviceStore demoCallA).1
      demoCallB).1 1 10 = some 80 := by
  refine ⟨?_, ?_, ?_, ?_⟩ <;> with_unfolding_all rfl

/-- C1 (amended): when a submit call carrying a session succeeds *while a
player row for the token's device already exists*, every later submit call
carrying the same session claims and addressed to the token's game — after
any interleaved sequence of other calls — is rejected with the already-used
error and leaves the store unchanged. -/
theorem claim_C1 : ∀ (st : Store) (c : SubmitCall) (st' : Store) (r : SubmitOk),
    applyCall st c = (st', .ok r) →
    st.players.any (fun p => p.device_id == c.sess.device_id) = true →
    ∀ (mid : List SubmitCall) (c' : SubmitCall),
      c'.sess = c.sess → c'.game_slug = c.sess.game_slug →
      applyCall (runCalls st' mid) c' =
        (runCalls st' mid, .error .alreadyUsed) := by
  intro st c st' r hok hpl mid c' hsess hslug
  obtain ⟨h1, h2, h3, h4, gid, h5, hst, -, -⟩ :=
    submitScore_ok_inv st c.game_slug c.sess c.score c.display_name c.now
      st' r hok
  obtain ⟨pid, hpid⟩ : ∃ pid,
      getPlayerIdByDevice st c.sess.device_id = some pid := by
    rw [List.any_eq_true] at hpl
    obtain ⟨x, hx, hpx⟩ := hpl
    have hsome : (st.players.find?
        (fun p => p.device_id == c.sess.device_id)).isSome :=
      List.find?_isSome.mpr ⟨x, hx, hpx⟩
    cases hfind : st.players.find?
        (fun p => p.device_id == c.sess.device_id) with
    | none => rw [hfind] at hsome; simp at hsome
    | some p0 =>
      exact ⟨p0.pid, by unfold getPlayerIdByDevice; rw [hfind]; rfl⟩
  have hmark : checkSessionUsed st' c.sess.session_id = true := by
    rw [hst]
    unfold checkSessionUsed submitPipeline
    rw [upsertIfBetter_game_sessions, getOrCreatePlayer_game_sessions,
      markSessionUsed_of_some st c.sess.session_id c.game_slug
        c.sess.device_id c.score c.sess.started_at c.now pid gid hpid h5]
    simp [List.any_append]
  have hmark2 : checkSessionUsed (runCalls st' mid) c.sess.session_id = true :=
    checkSessionUsed_runCalls st' mid _ hmark
  have hc'slug : c'.game_slug = c.game_slug := by rw [hslug, h2]
  have hres : submitScore (runCalls st' mid) c'.game_slug c'.sess c'.score
      c'.display_name c'.now = (runCalls st' mid, .error .alreadyUsed) := by
    apply submitScore_alreadyUsed
    · rw [hc'slug]; exact h1
    · rw [hsess, h2, hc'slug]
    · rw [hsess]; exact hmark2
  exact hres

/-- C1 witness: with the player row for d1 already present, a successful
submission burns session s1: the immediate replay is rejected as already
used. -/
theorem claim_C1_witness :
    applyCall (runCalls (applyCall knownPlayerStore demoCallA).1 []) demoCallB =
      (runCalls (applyCall knownPlayerStore demoCallA).1 [],
        .error .alreadyUsed) :=
  claim_C1 knownPlayerStore demoCallA (applyCall knownPlayerStore demoCallA).1
    ⟨1, true, "New personal best! You ranked #1"⟩ (by with_unfolding_all rfl)
    (by with_unfolding_all decide) [] demoCallB rfl rfl

/-- C6 counterexample: when the `games` table cannot resolve the slug, the
mark is indeed a no-op, but the submission is aborted by `get_game_id`'s
not-found error and no score is posted — it does not return success. -/
theorem claim_C6_cex :
    submitScore noGameStore "quizmo" demoSess 10 none 60 =
      (noGameStore, .error .gameNotFound) := by
  with_unfolding_all rfl

/-- C6 (amended): if resolving the device to a player fails during
mark-consumed, the mark is a no-op and the submission still succeeds, posting
the score (given fresh ids); but if resolving the game slug fails, the mark
is a no-op and the submission is then aborted with the not-found error,
leaving the store unchanged and posting nothing. -/
theorem claim_C6 :
    (∀ (st : Store) (gs : String) (sess : SessionClaims) (s : Int)
        (dn : Option String) (now : ℚ) (gid : Nat),
        VALID_GAMES.contains gs = true → sess.game_slug = gs →
        checkSessionUsed st sess.session_id = false →
        (validateScore gs s sess.started_at now).1 = true →
        getPlayerIdByDevice st sess.device_id = none →
        getGameIdBySlug st gs = some gid →
        (∀ e ∈ st.leaderboards, e.player_id ≠ st.nextId) →
        ((submitScore st gs sess s dn now).1.game_sessions = st.game_sessions ∧
          (∃ r, (submitScore st gs sess s dn now).2 = Except.ok r) ∧
          (∃ e ∈ (submitScore st gs sess s dn now).1.leaderboards,
            e.game_id = gid ∧ e.score = s))) ∧
    (∀ (st : Store) (gs : String) (sess : SessionClaims) (s : Int)
        (dn : Option String) (now : ℚ),
        VALID_GAMES.contains gs = true → sess.game_slug = gs →
        checkSessionUsed st sess.session_id = false →
        (validateScore gs s sess.started_at now).1 = true →
        getGameIdBySlug st gs = none →
        submitScore st gs sess s dn now = (st, .error .gameNotFound)) := by
  constructor
  · intro st gs sess s dn now gid h1 h2 h3 h4 hp hg hfresh
    obtain ⟨he1, r, he2, -, -⟩ :=
      submitScore_of_checks st gs sess s dn now gid h1 h2 h3 h4 hg
    have hmark : markSessionUsed st sess.session_id gs sess.device_id s
        sess.started_at now = st :=
      markSessionUsed_of_player_none st _ _ _ _ _ _ hp
    have hfind : st.players.find?
        (fun p => p.device_id == sess.device_id) = none := by
      unfold getPlayerIdByDevice at hp
      exact Option.map_eq_none'.mp hp
    have hgoc : getOrCreatePlayer st sess.device_id (displayNameOrAnon dn) now =
        (st.nextId,
          { st with
              players := st.players ++
                [{ pid := st.nextId, device_id := sess.device_id,
                   display_name := displayNameOrAnon dn, local_credits := 0,
                   last_active_at := now, updated_at := now }],
              nextId := st.nextId + 1 }) := by
      unfold getOrCreatePlayer
      rw [hfind]
    have hfind2 : st.leaderboards.find?
        (fun e => e.game_id == gid && e.player_id == st.nextId) = none := by
      refine List.find?_eq_none.mpr fun e he => ?_
      simp [hfresh e he]
    have hpipe : submitPipeline st gs sess s dn now gid =
        ({ st with
            players := st.players ++
              [{ pid := st.nextId, device_id := sess.device_id,
                 display_name := displayNameOrAnon dn, local_credits := 0,
                 last_active_at := now, updated_at := now }],
            leaderboards := st.leaderboards ++
              [⟨st.nextId + 1, gid, st.nextId, s, now⟩],
            nextId := st.nextId + 1 + 1 }, true) := by
      unfold submitPipeline
      rw [hmark, hgoc]
      unfold upsertIfBetter
      rw [hfind2]
    refine ⟨?_, ⟨r, he2⟩, ?_⟩
    · rw [he1, hpipe]
    · rw [he1, hpipe]
      exact ⟨⟨st.nextId + 1, gid, st.nextId, s, now⟩,
        List.mem_append_right _ (List.mem_singleton_self _), rfl, rfl⟩
  · intro st gs sess s dn now h1 h2 h3 h4 hg
    unfold submitScore
    rw [if_neg (not_not_intro h1), if_neg (not_not_intro h2),
      if_neg (by simp [h3]), if_neg (not_not_intro h4),
      getGameIdBySlug_mark, hg,
      markSessionUsed_of_game_none st _ _ _ _ _ _ hg]

/-- C6 witness: part one applied to the fresh-device store (player lookup
fails, game resolves, submission succeeds with the score posted and no mark);
part two applied to the store with an empty `games` table (aborted with the
not-found error). -/
theorem claim_C6_witness :
    ((submitScore freshDeviceStore "quizmo" demoSess 50 none
        60).1.game_sessions = freshDeviceStore.game_sessions ∧
      (∃ r, (submitScore freshDeviceStore "quizmo" demoSess 50 none 60).2 =
        Except.ok r) ∧
      (∃ e ∈ (submitScore freshDeviceStore "quizmo" demoSess 50 none
          60).1.leaderboards, e.game_id = 1 ∧ e.score = 50)) ∧
    submitScore noGameStore "mixmo" ⟨"s2", "mixmo", "d1", 0⟩ 3 none 60 =
      (noGameStore, .error .gameNotFound) :=
  ⟨claim_C6.1 freshDeviceStore "quizmo" demoSess 50 none 60 1
      (by with_unfolding_all decide) (by with_unfolding_all decide)
      (by with_unfolding_all decide) (by with_unfolding_all decide)
      (by with_unfolding_all decide) (by with_unfolding_all decide)
      (by simp [freshDeviceStore]),
   claim_C6.2 noGameStore "mixmo" ⟨"s2", "mixmo", "d1", 0⟩ 3 none 60
      (by with_unfolding_all decide) (by with_unfolding_all decide)
      (by with_unfolding_all decide) (by with_unfolding_all decide)
      (by with_unfolding_all decide)⟩

/-- C9: in the `GET /leaderboard/{game_slug}` listing, the rank of every
entry is its 1-based position in the score-descending result, so the two
tied entries of `tiedStore` get the distinct consecutive ranks 1 and 2 —
whereas the strict-greater-than rank used by `submit_score` and
`GET .../me` gives both tied players rank 1. -/
theorem claim_C9 :
    (∀ (st : Store) (gid lim i : Nat)
        (h : i < (getLeaderboardEntries st gid lim).length),
        ((getLeaderboardEntries st gid lim).get ⟨i, h⟩).rank = i + 1) ∧
    (getLeaderboardEntries tiedStore 1 100).map OutEntry.rank = [1, 2] ∧
    myRank tiedStore 1 1 = some 1 ∧
    myRank tiedStore 1 2 = some 1 := by
  refine ⟨?_, ?_, ?_, ?_⟩
  · intro st gid lim i h
    have hgen := rankEntriesFrom_get_rank st
      ((sortByScoreDesc (st.leaderboards.filter
        (fun e => e.game_id == gid))).take lim) 0 i h
    exact hgen.trans (by omega)
  · with_unfolding_all rfl
  · with_unfolding_all rfl
  · with_unfolding_all rfl

/-- C9 witness: the positional-rank part applied to the head of the tied
listing. -/
theorem claim_C9_witness :
    ∃ h : 0 < (getLeaderboardEntries tiedStore 1 100).length,
      ((getLeaderboardEntries tiedStore 1 100).get ⟨0, h⟩).rank = 0 + 1 := by
  have hlen : 0 < (getLeaderboardEntries tiedStore 1 100).length := by
    with_unfolding_all decide
  exact ⟨hlen, claim_C9.1 tiedStore 1 100 0 hlen⟩

/-- C10: every successful `submit_score` for a device with an existing player
row rewrites that player's `display_name` to the request's name (or
"Anonymous" when omitted) and stamps `last_active_at` and `updated_at` with
the call time, leaving the player's other fields — and every other player
row — untouched, whether or not the score was a new best. -/
theorem claim_C10 : ∀ (st : Store) (gs : String) (sess : SessionClaims)
    (s : Int) (dn : Option String) (now : ℚ) (st' : Store) (r : SubmitOk)
    (p : Player),
    submitScore st gs sess s dn now = (st', .ok r) →
    st.players.find? (fun q => q.device_id == sess.device_id) = some p →
    (st'.players.find? (fun q => q.device_id == sess.device_id) =
      some { p with display_name := displayNameOrAnon dn,
                    last_active_at := now, updated_at := now } ∧
     ∀ q ∈ st.players, q.pid ≠ p.pid → q ∈ st'.players) := by
  intro st gs sess s dn now st' r p h hfind
  obtain ⟨-, -, -, -, gid, -, hst, -, -⟩ :=
    submitScore_ok_inv st gs sess s dn now st' r h
  have hfind1 : (markSessionUsed st sess.session_id gs sess.device_id s
      sess.started_at now).players.find?
      (fun q => q.device_id == sess.device_id) = some p := by
    rw [markSessionUsed_players]; exact hfind
  have hplayers : st'.players =
      (markSessionUsed st sess.session_id gs sess.device_id s sess.started_at
        now).players.map (fun q => if q.pid == p.pid then
          { q with display_name := displayNameOrAnon dn,
                   last_active_at := now, updated_at := now } else q) := by
    rw [hst]
    unfold submitPipeline
    rw [upsertIfBetter_players]
    unfold getOrCreatePlayer
    simp only [hfind1]
  constructor
  · rw [hplayers, markSessionUsed_players]
    exact find?_update_player st.players sess.device_id
      (displayNameOrAnon dn) now p hfind
  · intro q hq hne
    rw [hplayers, markSessionUsed_players]
    exact mem_update_player st.players p q (displayNameOrAnon dn) now hq hne

/-- C10 witness: device d1 (stored best 100, display name Old) submits 80 —
not a new best — with display name Neo: the player row is renamed to Neo and
restamped, its other fields unchanged. -/
theorem claim_C10_witness :
    (submitScore renameStore "quizmo" demoSess 80 (some "Neo")
        60).1.players.find? (fun q => q.device_id == demoSess.device_id) =
      some { (⟨1, "d1", "Old", 0, 0, 0⟩ : Player) with
               display_name := displayNameOrAnon (some "Neo"),
               last_active_at := 60, updated_at := 60 } ∧
    ∀ q ∈ renameStore.players,
      q.pid ≠ (⟨1, "d1", "Old", 0, 0, 0⟩ : Player).pid →
      q ∈ (submitScore renameStore "quizmo" demoSess 80 (some "Neo")
        60).1.players :=
  claim_C10 renameStore "quizmo" demoSess 80 (some "Neo") 60
    (submitScore renameStore "quizmo" demoSess 80 (some "Neo") 60).1
    ⟨2, false, "Score submitted. Your best is still higher. Current rank: #2"⟩
    ⟨1, "d1", "Old", 0, 0, 0⟩
    (by with_unfolding_all rfl) (by with_unfolding_all rfl)

end FunHub
